import Mathlib

/-!
Shallow embedding of the arbitrage decision-and-lifecycle engine of
`src/SpreadArbitrage.py` (the current engine; the legacy near-duplicate
`SpreadArbitrage_old.py` is excluded, as §9 of the spec directs).

Modelling conventions:
* Python floats are embedded as exact rationals (ℚ); `round(x, 8)` is embedded
  as rounding half-to-even to a multiple of 10⁻⁸ (`round8` below).
* The database tables are embedded as Lean lists in primary-key (`id`) order:
  `open_trades` as `List OpenTrade` and `profit_tracking` as
  `List ProfitSnapshot`.  SQL `INSERT ... RETURNING id` becomes an append with
  an explicit fresh id, and the `ON CONFLICT ... DO UPDATE` upsert of
  `profit_tracking` (unique constraint on `current_balance`) becomes
  `upsert_snapshot`.
* External fetches (prices, balances, lot steps) are passed as parameters:
  a price fetch is an `Option (ℚ × ℚ)` (the code uses `(None, None)` when
  either leg is absent), balances and lot steps are plain rationals.
* The module-level configuration constants keep their source names and values;
  `SIMULATION = True` in the source, so the live-trading branches (which only
  issue exchange orders and transfers, never touch the database) are the
  no-ops they are in the source when `SIMULATION` holds.
* Trade timestamps are rationals in seconds (`MAX_TRADE_DURATION` is in
  seconds); ledger timestamps are rationals in days (the trailing windows are
  1, 7 and 30 days).
-/

namespace SpreadArbitrage

/-- Configuration constants, SpreadArbitrage.py lines 12-19. -/
def SIMULATION : Bool := true

/-- Spread threshold (%) to open a position, source line 13. -/
def SPREAD : ℚ := 3 / 100

/-- Fraction of balance risked per trade, source line 14. -/
def RISK_PER_TRADE : ℚ := 1

/-- Minimum position size in USDT, source line 15. -/
def MIN_POSITION_SIZE : ℚ := 10

/-- Initial simulated balance, source line 16. -/
def STARTING_BALANCE : ℚ := 1000

/-- Futures fee rate, source line 17. -/
def FUTURES_FEE : ℚ := 45 / 100000

/-- Margin fee rate, source line 18. -/
def MARGIN_FEE : ℚ := 75 / 100000

/-- Maximum holding time in seconds, source line 19. -/
def MAX_TRADE_DURATION : ℚ := 1800

/-- Rounding half-to-even to the nearest integer, the rule Python's builtin
`round` uses; embeds `round(x, 8)` together with `round8`. -/
def roundHalfEven (x : ℚ) : ℤ :=
  let n : ℤ := ⌊x⌋
  let f : ℚ := x - n
  if f < 1 / 2 then n
  else if 1 / 2 < f then n + 1
  else if Even n then n else n + 1

/-- Python's `round(x, 8)`: round half-to-even to a multiple of 10⁻⁸. -/
def round8 (x : ℚ) : ℚ :=
  (roundHalfEven (x * 10 ^ 8) : ℚ) / 10 ^ 8

/-- Embedding of `simulate_trade` (source lines 293-323).  Entry and exit
prices are `Option ℚ` because the Python code explicitly handles `None`
arguments; every unrecognized `trade_type` string falls through to the final
`return 0.0`. -/
def simulate_trade (entry_price exit_price : Option ℚ)
    (quantity entry_fee exit_fee : ℚ) (trade_type : String) : ℚ :=
  match entry_price, exit_price with
  | some ep, some xp =>
    if trade_type = "SPOT_LONG" then
      round8 (xp * quantity * (1 - exit_fee) - ep * quantity * (1 + entry_fee))
    else if trade_type = "SPOT_SHORT" then
      round8 (ep * quantity * (1 - entry_fee) - xp * quantity * (1 + exit_fee))
    else if trade_type = "FUTURES_LONG" then
      round8 (xp * quantity * (1 - exit_fee) - ep * quantity * (1 + entry_fee))
    else if trade_type = "FUTURES_SHORT" then
      round8 (ep * quantity * (1 - entry_fee) - xp * quantity * (1 + exit_fee))
    else 0
  | _, _ => 0

/-- Embedding of `calculate_position_size` (source lines 280-291).  The
available balance (`get_available_balance`) and the lot step
(`get_lot_size`) are external fetches in the source and are passed here as
parameters `balance` and `step_size`. -/
def calculate_position_size (price balance step_size : ℚ) : ℚ :=
  let risk_amount : ℚ := balance * RISK_PER_TRADE / 2
  if risk_amount < MIN_POSITION_SIZE then 0
  else
    let quantity : ℚ := risk_amount / price
    let quantity : ℚ :=
      if 0 < step_size then (⌊quantity / step_size⌋ : ℚ) * step_size else quantity
    round8 quantity

/-- Spread percentage as computed at source lines 612-613 (and again at
lines 572-573): `(futures - spot) / spot * 100`. -/
def spread_percent_of (spot_price futures_price : ℚ) : ℚ :=
  (futures_price - spot_price) / spot_price * 100

/-- Action classification of `analyze_and_store` (source lines 615-619). -/
def classify_action (spread_percent threshold : ℚ) : String :=
  if spread_percent > threshold then "BUY_MARGIN_SHORT"
  else if spread_percent < -threshold then "BUY_FUTURES"
  else "HOLD"

/-- Row of the `open_trades` table (schema at source lines 61-85). -/
structure OpenTrade where
  id : Nat
  symbol : String
  market_type : String
  side : String
  entry_price : ℚ
  quantity : ℚ
  timestamp_open : ℚ
  close_price : Option ℚ
  timestamp_close : Option ℚ
  profit_usdt : ℚ
  closed : Bool
deriving DecidableEq

/-- Embedding of `create_open_trade` (source lines 325-342): an SQL
`INSERT ... RETURNING id` appending a non-closed row with a fresh id. -/
def create_open_trade (trades : List OpenTrade) (next_id : Nat)
    (symbol market_type side : String) (entry_price quantity now : ℚ) :
    List OpenTrade × Nat :=
  (trades ++ [⟨next_id, symbol, market_type, side, entry_price, quantity, now,
    none, none, 0, false⟩], next_id)

/-- Embedding of `has_open_position` (source lines 536-545): a row for the
symbol with `closed = FALSE` exists. -/
def has_open_position (trades : List OpenTrade) (symbol : String) : Bool :=
  trades.any (fun t => decide (t.symbol = symbol ∧ t.closed = false))

/-- Number of non-closed `open_trades` rows for a symbol; the quantity the
one-open-position-per-symbol invariant bounds. -/
def openTradesFor (trades : List OpenTrade) (symbol : String) : Nat :=
  (trades.filter (fun t => decide (t.symbol = symbol ∧ t.closed = false))).length

/-- Embedding of the trade-opening part of `analyze_and_store` (source lines
608-677) with `SIMULATION = True` (source line 12): classification of the
fetched prices, then the two action branches.  Returns the updated
`open_trades` table, the `open_trade_id` attached to the
`arbitrage_opportunities` row, and the `action` string.  Faithful details:
the branch tested first is `action == "BUY_MARGIN_LONG"`, a string the
classification never produces (it produces `"BUY_MARGIN_SHORT"`); and
`create_open_trade` is reached whenever `quantity > 0`, because the
`has_open_position` test at lines 627 and 653 only guards the
real-order block behind `not SIMULATION`.  The early return on a failed
price fetch (lines 608-610) is modelled by only applying this function to
fetched prices. -/
def analyze_and_store_step (trades : List OpenTrade) (next_id : Nat)
    (symbol : String) (spot_price futures_price threshold balance step_size now : ℚ) :
    List OpenTrade × Option Nat × String :=
  let spread_percent := spread_percent_of spot_price futures_price
  let action := classify_action spread_percent threshold
  if action = "BUY_MARGIN_LONG" then
    let quantity := calculate_position_size spot_price balance step_size
    if quantity > 0 then
      let r := create_open_trade trades next_id symbol "MARGIN" "LONG" spot_price quantity now
      (r.1, some r.2, action)
    else (trades, none, action)
  else if action = "BUY_FUTURES" then
    let quantity := calculate_position_size spot_price balance step_size
    if quantity > 0 then
      let r := create_open_trade trades next_id symbol "MARGIN" "SHORT" spot_price quantity now
      (r.1, some r.2, action)
    else (trades, none, action)
  else (trades, none, action)

/-- Whether `close_trade` (source lines 344-459) actually closes the trade:
it returns without closing when the price fetch fails (lines 360-362) and
when the `(market_type, side)` pair matches none of its branches
(lines 439-440); otherwise it updates the row with `closed = TRUE`. -/
def close_trade_closes (prices : Option (ℚ × ℚ)) (market_type side : String) : Bool :=
  match prices with
  | none => false
  | some _ =>
    decide ((market_type = "MARGIN" ∧ side = "LONG") ∨
      (market_type = "MARGIN" ∧ side = "SHORT") ∨ market_type = "FUTURES")

/-- Profit recorded by `close_trade` (source lines 364-443): the branch
selects the `trade_type` string, the exit price (spot for margin legs,
futures for futures legs) and the fee rate, then calls `simulate_trade`.
`none` is the no-close fall-through of lines 439-440. -/
def close_trade_profit (market_type side : String)
    (entry_price spot_price futures_price quantity : ℚ) : Option ℚ :=
  if market_type = "MARGIN" ∧ side = "LONG" then
    some (simulate_trade (some entry_price) (some spot_price) quantity
      MARGIN_FEE MARGIN_FEE "MARGIN_LONG")
  else if market_type = "MARGIN" ∧ side = "SHORT" then
    some (simulate_trade (some entry_price) (some spot_price) quantity
      MARGIN_FEE MARGIN_FEE "SPOT_SHORT")
  else if market_type = "FUTURES" ∧ side = "LONG" then
    some (simulate_trade (some entry_price) (some futures_price) quantity
      FUTURES_FEE FUTURES_FEE "FUTURES_LONG")
  else if market_type = "FUTURES" ∧ side = "SHORT" then
    some (simulate_trade (some entry_price) (some futures_price) quantity
      FUTURES_FEE FUTURES_FEE "FUTURES_SHORT")
  else none

/-- Embedding of one trade's treatment by `check_open_positions` (source
lines 547-593): returns whether the trade ends this pass closed.  `prices`
is the result of `fetch_prices` for the trade's symbol during this pass
(the deterministic environment serves the same answer to the refetch
inside `close_trade`).  On timeout the trade is handed to `close_trade`
unconditionally (lines 563-566); otherwise a failed fetch skips the trade
(lines 568-570), and the spread-reversal triggers of lines 578-590 apply
only to `MARGIN`/`LONG` (close when `spread_percent ≤ 0`) and
`MARGIN`/`SHORT` (close when `spread_percent ≥ 0`). -/
def check_open_position_step (now : ℚ) (prices : Option (ℚ × ℚ))
    (t : OpenTrade) : Bool :=
  if now - t.timestamp_open > MAX_TRADE_DURATION then
    close_trade_closes prices t.market_type t.side
  else
    match prices with
    | none => false
    | some (spot_price, futures_price) =>
      let spread_percent := spread_percent_of spot_price futures_price
      if t.market_type = "MARGIN" ∧ t.side = "LONG" then
        if spread_percent ≤ 0 then close_trade_closes prices t.market_type t.side
        else false
      else if t.market_type = "MARGIN" ∧ t.side = "SHORT" then
        if spread_percent ≥ 0 then close_trade_closes prices t.market_type t.side
        else false
      else false

/-- Row of the `profit_tracking` table (schema at source lines 97-127; note
the UNIQUE constraint on `current_balance` added at lines 120-127). -/
structure ProfitSnapshot where
  timestamp : ℚ
  current_balance : ℚ
  profit_usdt : ℚ
  profit_percent : ℚ
  daily_profit : ℚ
  weekly_profit : ℚ
  monthly_profit : ℚ
deriving DecidableEq

/-- Balance update rule of `update_profit_tracking`, source line 497:
`new_balance = max(0.0, last_balance + profit_change)`. -/
def new_balance (last_balance profit_change : ℚ) : ℚ :=
  max 0 (last_balance + profit_change)

/-- Percent rule of `update_profit_tracking`, source line 499:
`(profit_usdt / STARTING_BALANCE) * 100 if STARTING_BALANCE > 0 else 0.0`,
with the starting balance a parameter (`initialize_balance` can reassign
the global in live mode). -/
def profit_percent_of (profit_usdt starting_balance : ℚ) : ℚ :=
  if starting_balance > 0 then profit_usdt / starting_balance * 100 else 0

/-- Last recorded balance (source lines 493-495): the `current_balance` of
the latest row (`ORDER BY id DESC LIMIT 1`), or the starting balance when
the ledger is empty. -/
def last_balance_of (ledger : List ProfitSnapshot) (starting_balance : ℚ) : ℚ :=
  match ledger.getLast? with
  | some r => r.current_balance
  | none => starting_balance

/-- Trailing-window profit `get_period_profit` (source lines 502-510):
new balance minus the balance of the earliest row (`ORDER BY id ASC LIMIT 1`)
whose timestamp is at least `now - days`; `0` when no such row exists.
Timestamps are in days. -/
def period_profit (ledger : List ProfitSnapshot) (now days nb : ℚ) : ℚ :=
  match (ledger.filter (fun r => decide (now - days ≤ r.timestamp))).head? with
  | some pr => nb - pr.current_balance
  | none => 0

/-- The `INSERT ... ON CONFLICT ON CONSTRAINT profit_tracking_unique DO
UPDATE` of source lines 516-529: the constraint is UNIQUE on
`current_balance`, so a row whose balance equals the new row's balance is
overwritten in place; otherwise the new row is appended. -/
def upsert_snapshot (ledger : List ProfitSnapshot) (s : ProfitSnapshot) :
    List ProfitSnapshot :=
  if ledger.any (fun r => decide (r.current_balance = s.current_balance)) then
    ledger.map (fun r => if r.current_balance = s.current_balance then s else r)
  else ledger ++ [s]

/-- Embedding of `update_profit_tracking` (source lines 484-534) on the
ledger state, with the starting balance and the current time as
parameters. -/
def update_profit_tracking (starting_balance now : ℚ)
    (ledger : List ProfitSnapshot) (profit_change : ℚ) : List ProfitSnapshot :=
  let lb := last_balance_of ledger starting_balance
  let nb := new_balance lb profit_change
  let pu := nb - starting_balance
  let pp := profit_percent_of pu starting_balance
  let daily := period_profit ledger now 1 nb
  let weekly := period_profit ledger now 7 nb
  let monthly := period_profit ledger now 30 nb
  upsert_snapshot ledger ⟨now, nb, pu, pp, daily, weekly, monthly⟩

/-- Outcome of one invocation of the operation wrapped by `safe_api_call`:
a value, a classified-transient fault (`BinanceAPIException`,
`ConnectionError`, `TimeoutError` — the tuple caught at source line 139),
or any other exception, which the wrapper does not catch. -/
inductive CallOutcome (α : Type) where
  | ok : α → CallOutcome α
  | transient : CallOutcome α
  | fatal : CallOutcome α
deriving DecidableEq

/-- Result of `safe_api_call` as seen by the caller: a returned value, the
`None` returned after exhausting the retries, or an uncaught exception
escaping. -/
inductive CallResult (α : Type) where
  | value : α → CallResult α
  | nothing : CallResult α
  | escaped : CallResult α
deriving DecidableEq

/-- Retry bound of `safe_api_call`, source line 135. -/
def max_retries : Nat := 3

/-- Attempt loop of `safe_api_call` (source lines 136-142).  `f attempt` is
the outcome of invoking the wrapped operation on the given zero-based
attempt; the result records the caller-visible outcome, the number of
invocations made, and the list of back-off delays slept (a delay of
`2 ^ attempt` seconds follows every transient fault, source line 141). -/
def safe_api_go (f : Nat → CallOutcome α) : Nat → Nat → CallResult α × Nat × List ℚ
  | _, 0 => (CallResult.nothing, 0, [])
  | attempt, n + 1 =>
    match f attempt with
    | CallOutcome.ok v => (CallResult.value v, 1, [])
    | CallOutcome.transient =>
      match safe_api_go f (attempt + 1) n with
      | (r, c, ds) => (r, c + 1, ((2 : ℚ) ^ attempt) :: ds)
    | CallOutcome.fatal => (CallResult.escaped, 1, [])

/-- Embedding of `safe_api_call` (source lines 133-142). -/
def safe_api_call (f : Nat → CallOutcome α) : CallResult α × Nat × List ℚ :=
  safe_api_go f 0 max_retries

/-- State of `open_trades` after one evaluation of symbol BTCUSDT starting
from an empty table, with spot 100 and futures 99.9 (spread −0.1% below
−SPREAD), simulated balance 1000 and lot step 1, at time 0. -/
def tradesC1a : List OpenTrade :=
  (analyze_and_store_step [] 1 "BTCUSDT" 100 (999 / 10) SPREAD 1000 1 0).1

/-- State of `open_trades` after re-evaluating BTCUSDT with the same prices
60 seconds later, starting from `tradesC1a`. -/
def tradesC1b : List OpenTrade :=
  (analyze_and_store_step tradesC1a 2 "BTCUSDT" 100 (999 / 10) SPREAD 1000 1 60).1

/-- The initial `profit_tracking` row written by the balance-initialization
routine (source lines 461-482): balance 1000, all profits 0, at time 0. -/
def snapC4 : ProfitSnapshot := ⟨0, 1000, 0, 0, 0, 0, 0⟩

/-- A non-closed MARGIN/LONG trade opened at time 0, entry 100, quantity 5. -/
def tradeC7 : OpenTrade :=
  ⟨1, "ETHUSDT", "MARGIN", "LONG", 100, 5, 0, none, none, 0, false⟩

/-- An operation whose every invocation raises a classified-transient
error. -/
def transientOnly : Nat → CallOutcome Unit := fun _ => CallOutcome.transient

/-- Rounding half-to-even never turns a nonnegative argument negative. -/
theorem roundHalfEven_nonneg (x : ℚ) (hx : 0 ≤ x) : 0 ≤ roundHalfEven x := by
  have hfl : (0 : ℤ) ≤ ⌊x⌋ := Int.floor_nonneg.mpr hx
  simp only [roundHalfEven]
  split_ifs <;> omega

/-- Rounding to 8 decimals never turns a nonnegative argument negative. -/
theorem round8_nonneg (x : ℚ) (hx : 0 ≤ x) : 0 ≤ round8 x := by
  have h := roundHalfEven_nonneg (x * 10 ^ 8) (by positivity)
  rw [round8]
  exact div_nonneg (by exact_mod_cast h) (by positivity)

/-- Claim C1 (code bug evidence): the one-open-position-per-symbol invariant
fails on a reachable state.  From an empty `open_trades` table, evaluating
BTCUSDT at spot 100 / futures 99.9 (spread −0.1% < −SPREAD, sized quantity
5 > 0) opens one trade; the close-check pass that follows leaves it open
(no timeout, spread still negative for a MARGIN/SHORT basis); re-evaluating
the symbol with the same prices while `has_open_position` is already true
appends a second non-closed row, because `analyze_and_store` only consults
`has_open_position` inside the `not SIMULATION` guard of its real-order
block and never skips the `create_open_trade` call — contradicting its own
docstring step 1, "Checks if there is an open position (skip if there
is)". -/
theorem C1_second_open_trade_row :
    has_open_position tradesC1a "BTCUSDT" = true ∧
    tradesC1a.all (fun t => !check_open_position_step 60 (some (100, 999 / 10)) t) = true ∧
    openTradesFor tradesC1b "BTCUSDT" = 2 := by
  have hclass : classify_action (spread_percent_of 100 (999 / 10)) SPREAD = "BUY_FUTURES" := by
    norm_num [classify_action, spread_percent_of, SPREAD]
  have hq : calculate_position_size 100 1000 1 = 5 := by
    norm_num [calculate_position_size, RISK_PER_TRADE, MIN_POSITION_SIZE, round8, roundHalfEven]
  have ha : tradesC1a =
      [⟨1, "BTCUSDT", "MARGIN", "SHORT", 100, 5, 0, none, none, 0, false⟩] := by
    simp [tradesC1a, analyze_and_store_step, hclass, hq, create_open_trade]
  have hb : tradesC1b = [⟨1, "BTCUSDT", "MARGIN", "SHORT", 100, 5, 0, none, none, 0, false⟩,
      ⟨2, "BTCUSDT", "MARGIN", "SHORT", 100, 5, 60, none, none, 0, false⟩] := by
    simp [tradesC1b, ha, analyze_and_store_step, hclass, hq, create_open_trade]
  refine ⟨by simp [ha, has_open_position], ?_, by simp [hb, openTradesFor]⟩
  rw [ha]
  simp only [List.all_cons, List.all_nil, Bool.and_true]
  norm_num [check_open_position_step, close_trade_closes, spread_percent_of, MAX_TRADE_DURATION]
  decide

/-- Claim C2 (code bug evidence): with threshold SPREAD = 0.03, spot 100 and
futures 100.05, the spread percent 0.05 exceeds the threshold, no non-closed
OpenTrade exists, and sizing would yield quantity 5 > 0 — yet
`analyze_and_store` opens nothing: the classification produces the action
string "BUY_MARGIN_SHORT" while the opening branch tests for
"BUY_MARGIN_LONG", a string never produced, so the `open_trades` table is
unchanged and the attached `open_trade_id` is NULL, contradicting docstring
step 4, "If spread_percent > threshold → opens SPOT_LONG +
FUTURES_SHORT". -/
theorem C2_positive_spread_opens_no_trade :
    spread_percent_of 100 (10005 / 100) > SPREAD ∧
    has_open_position [] "BTCUSDT" = false ∧
    calculate_position_size 100 1000 (1 / 1000) = 5 ∧
    analyze_and_store_step [] 1 "BTCUSDT" 100 (10005 / 100) SPREAD 1000 (1 / 1000) 0 =
      ([], none, "BUY_MARGIN_SHORT") := by
  have hclass : classify_action (spread_percent_of 100 (10005 / 100)) SPREAD =
      "BUY_MARGIN_SHORT" := by
    norm_num [classify_action, spread_percent_of, SPREAD]
  refine ⟨by norm_num [spread_percent_of, SPREAD], rfl, ?_, ?_⟩
  · norm_num [calculate_position_size, RISK_PER_TRADE, MIN_POSITION_SIZE, round8, roundHalfEven]
  · simp [analyze_and_store_step, hclass]

/-- Claim C3 (code bug evidence): closing a MARGIN/LONG trade with entry 100,
exit (spot) 110 and quantity 1 records profit 0, not the LONG-formula value,
because `close_trade` passes the trade type string "MARGIN_LONG" to
`simulate_trade`, which recognizes no such type and falls through to its
final `return 0.0`.  The LONG formula of the claim, with entry and exit fee
0.001, would give 110·1·(1−0.001) − 100·1·(1+0.001) = 9.79 ≠ 0. -/
theorem C3_margin_long_close_profit_zero :
    close_trade_profit "MARGIN" "LONG" 100 110 110 1 = some 0 ∧
    (110 * 1 * (1 - 1 / 1000) - 100 * 1 * (1 + 1 / 1000) : ℚ) = 979 / 100 ∧
    (979 / 100 : ℚ) ≠ 0 := by
  refine ⟨?_, by norm_num, by norm_num⟩
  simp [close_trade_profit, simulate_trade]

/-- Claim C4 counterexample: `update_profit_tracking` is not append-only.
Starting from the one-row ledger `[snapC4]` (balance 1000), a zero-delta
call computes the same balance 1000, which collides with the UNIQUE
constraint on `current_balance`; the `ON CONFLICT ... DO UPDATE` clause
overwrites the existing snapshot in place, so the ledger still has exactly
one row and the original snapshot is gone. -/
theorem C4_balance_collision_overwrites :
    (update_profit_tracking 1000 100 [snapC4] 0).length = 1 ∧
    snapC4 ∉ update_profit_tracking 1000 100 [snapC4] 0 := by
  have h : update_profit_tracking 1000 100 [snapC4] 0 =
      [⟨100, 1000, 0, 0, 0, 0, 0⟩] := by
    norm_num [update_profit_tracking, last_balance_of, new_balance, profit_percent_of,
      period_profit, upsert_snapshot, snapC4]
  rw [h]
  norm_num [snapC4]

/-- Claim C4 (amended): a call to `update_profit_tracking` whose computed new
balance differs from the `current_balance` of every existing snapshot
appends exactly one new row, with that balance, and leaves every existing
row unmodified; when the new balance collides with an existing row the
balance-keyed upsert overwrites that row in place instead of appending. -/
theorem C4_fresh_balance_appends (starting_balance now profit_change : ℚ)
    (ledger : List ProfitSnapshot)
    (h : ∀ r ∈ ledger, r.current_balance ≠
      new_balance (last_balance_of ledger starting_balance) profit_change) :
    ∃ s, update_profit_tracking starting_balance now ledger profit_change = ledger ++ [s] ∧
      s.current_balance = new_balance (last_balance_of ledger starting_balance) profit_change := by
  have hany : ledger.any (fun r => decide (r.current_balance =
      new_balance (last_balance_of ledger starting_balance) profit_change)) = false := by
    rw [List.any_eq_false]
    intro r hr
    simpa using h r hr
  refine ⟨⟨now, new_balance (last_balance_of ledger starting_balance) profit_change,
      new_balance (last_balance_of ledger starting_balance) profit_change - starting_balance,
      profit_percent_of
        (new_balance (last_balance_of ledger starting_balance) profit_change - starting_balance)
        starting_balance,
      period_profit ledger now 1
        (new_balance (last_balance_of ledger starting_balance) profit_change),
      period_profit ledger now 7
        (new_balance (last_balance_of ledger starting_balance) profit_change),
      period_profit ledger now 30
        (new_balance (last_balance_of ledger starting_balance) profit_change)⟩,
    ?_, rfl⟩
  simp only [update_profit_tracking, upsert_snapshot, hany]
  simp

/-- Witness for C4: on the ledger `[snapC4]` with delta 5 the new balance
1005 is fresh, so the call appends. -/
theorem C4_fresh_balance_appends_witness :
    ∃ s, update_profit_tracking 1000 100 [snapC4] 5 = [snapC4] ++ [s] ∧
      s.current_balance = new_balance (last_balance_of [snapC4] 1000) 5 :=
  C4_fresh_balance_appends 1000 100 5 [snapC4] (by
    intro r hr
    simp only [List.mem_singleton] at hr
    subst hr
    norm_num [snapC4, last_balance_of, new_balance])

/-- Claim C5 counterexample: `calculate_position_size` can return a nonzero
quantity whose notional is below MIN_POSITION_SIZE — with price 7, balance
20 and lot step 1 the risk amount is 10 (not below the minimum), but lot
flooring gives quantity 1 with notional 7 < 10; and it can return 0 even
though the risk amount is not below the minimum — with price 100, balance
20 and lot step 1 the floor collapses quantity 0.1 to 0. -/
theorem C5_nonzero_below_min_notional :
    (calculate_position_size 7 20 1 ≠ 0 ∧
      calculate_position_size 7 20 1 * 7 < MIN_POSITION_SIZE) ∧
    (calculate_position_size 100 20 1 = 0 ∧
      ¬ 20 * RISK_PER_TRADE / 2 < MIN_POSITION_SIZE) := by
  have h1 : calculate_position_size 7 20 1 = 1 := by
    norm_num [calculate_position_size, RISK_PER_TRADE, MIN_POSITION_SIZE, round8, roundHalfEven]
  have h2 : calculate_position_size 100 20 1 = 0 := by
    norm_num [calculate_position_size, RISK_PER_TRADE, MIN_POSITION_SIZE, round8, roundHalfEven]
  rw [h1, h2]
  norm_num [MIN_POSITION_SIZE, RISK_PER_TRADE]

/-- Claim C5 (amended): for price > 0 and a nonnegative balance,
`calculate_position_size` returns 0 whenever the risk amount
balance·RISK_PER_TRADE/2 is below MIN_POSITION_SIZE, and its result is
always nonnegative; a nonzero result is the lot-floored quantity, whose
notional may fall below MIN_POSITION_SIZE (and flooring may return 0 even
when the risk amount is not below the minimum). -/
theorem C5_size_floor_or_zero (price balance step_size : ℚ)
    (hp : 0 < price) (hb : 0 ≤ balance) :
    (balance * RISK_PER_TRADE / 2 < MIN_POSITION_SIZE →
      calculate_position_size price balance step_size = 0) ∧
    0 ≤ calculate_position_size price balance step_size := by
  have hrisk : (0 : ℚ) ≤ balance * RISK_PER_TRADE / 2 :=
    div_nonneg (mul_nonneg hb (by norm_num [RISK_PER_TRADE])) (by norm_num)
  constructor
  · intro h
    simp only [calculate_position_size, if_pos h]
  · simp only [calculate_position_size]
    split_ifs with h1 h2
    · exact le_refl 0
    · apply round8_nonneg
      exact mul_nonneg
        (Int.cast_nonneg.mpr (Int.floor_nonneg.mpr
          (div_nonneg (div_nonneg hrisk hp.le) h2.le)))
        h2.le
    · exact round8_nonneg _ (div_nonneg hrisk hp.le)

/-- Witness for C5: with price 100, balance 10 and lot step 1 the risk
amount 5 is below the minimum, so the sizer returns 0, and the result is
nonnegative. -/
theorem C5_size_floor_or_zero_witness :
    calculate_position_size 100 10 1 = 0 ∧ 0 ≤ calculate_position_size 100 10 1 :=
  ⟨(C5_size_floor_or_zero 100 10 1 (by norm_num) (by norm_num)).1
      (by norm_num [RISK_PER_TRADE, MIN_POSITION_SIZE]),
    (C5_size_floor_or_zero 100 10 1 (by norm_num) (by norm_num)).2⟩

/-- Claim C6 (confirmed): for spot > 0 the spread percent equals
(futures − spot)/spot·100, and classification against a threshold t ≥ 0 is
the trichotomy — above t the SHORT-basis non-HOLD action
("BUY_MARGIN_SHORT", the branch the module docstring describes as opening
SPOT_LONG + FUTURES_SHORT), below −t the LONG-basis non-HOLD action
("BUY_FUTURES"), and HOLD in between. -/
theorem C6_spread_formula_and_classification (spot_price futures_price threshold : ℚ)
    (hs : 0 < spot_price) (ht : 0 ≤ threshold) :
    spread_percent_of spot_price futures_price =
      (futures_price - spot_price) / spot_price * 100 ∧
    (spread_percent_of spot_price futures_price > threshold →
      classify_action (spread_percent_of spot_price futures_price) threshold =
        "BUY_MARGIN_SHORT" ∧ "BUY_MARGIN_SHORT" ≠ "HOLD") ∧
    (spread_percent_of spot_price futures_price < -threshold →
      classify_action (spread_percent_of spot_price futures_price) threshold =
        "BUY_FUTURES" ∧ "BUY_FUTURES" ≠ "HOLD") ∧
    (-threshold ≤ spread_percent_of spot_price futures_price ∧
        spread_percent_of spot_price futures_price ≤ threshold →
      classify_action (spread_percent_of spot_price futures_price) threshold = "HOLD") := by
  refine ⟨rfl, ?_, ?_, ?_⟩
  · intro h
    rw [classify_action, if_pos h]
    exact ⟨rfl, by decide⟩
  · intro h
    rw [classify_action, if_neg (by linarith), if_pos h]
    exact ⟨rfl, by decide⟩
  · rintro ⟨h1, h2⟩
    rw [classify_action, if_neg (by linarith), if_neg (by linarith)]

/-- Witness for C6: spot 100, futures 100.05, threshold SPREAD = 0.03 —
the spread percent 0.05 exceeds the threshold and classification yields the
non-HOLD action "BUY_MARGIN_SHORT". -/
theorem C6_spread_formula_and_classification_witness :
    classify_action (spread_percent_of 100 (10005 / 100)) SPREAD = "BUY_MARGIN_SHORT" ∧
      "BUY_MARGIN_SHORT" ≠ "HOLD" :=
  (C6_spread_formula_and_classification 100 (10005 / 100) SPREAD (by norm_num)
      (by norm_num [SPREAD])).2.1
    (by norm_num [spread_percent_of, SPREAD])

/-- Claim C7 counterexample: the unconditional timeout disjunct of the claim
fails when the price fetch fails.  The MARGIN/LONG trade `tradeC7` opened at
time 0 has holding time 2000 > MAX_TRADE_DURATION = 1800 at time 2000, so
the claim says it closes; but with the fetch returning no prices the pass
leaves it open, because `close_trade` refetches the prices and returns
without closing when either is absent (source lines 360-362). -/
theorem C7_timeout_fetch_failure_stays_open :
    2000 - tradeC7.timestamp_open > MAX_TRADE_DURATION ∧
    tradeC7.market_type = "MARGIN" ∧ tradeC7.closed = false ∧
    check_open_position_step 2000 none tradeC7 = false := by
  refine ⟨by norm_num [tradeC7, MAX_TRADE_DURATION], rfl, rfl, ?_⟩
  norm_num [check_open_position_step, close_trade_closes, tradeC7, MAX_TRADE_DURATION]

/-- Claim C7 (amended): on a close-check pass, a non-closed MARGIN trade is
closed if and only if the price fetch for its symbol succeeds **and** either
its holding time now − timestamp_open exceeds MAX_TRADE_DURATION or the
recomputed spread percent is ≤ 0 for the originally-SHORT-basis
(MARGIN/LONG) position or ≥ 0 for the originally-LONG-basis (MARGIN/SHORT)
position; when the fetch fails the trade remains open even on timeout —
`close_trade` refetches the prices and defers the closure to a later
cycle. -/
theorem C7_close_iff_fetch_and_trigger (now spot_price futures_price : ℚ)
    (t : OpenTrade) (hm : t.market_type = "MARGIN")
    (hside : t.side = "LONG" ∨ t.side = "SHORT") :
    (check_open_position_step now (some (spot_price, futures_price)) t = true ↔
      (now - t.timestamp_open > MAX_TRADE_DURATION ∨
        (t.side = "LONG" ∧ spread_percent_of spot_price futures_price ≤ 0) ∨
        (t.side = "SHORT" ∧ 0 ≤ spread_percent_of spot_price futures_price))) ∧
    check_open_position_step now none t = false := by
  constructor
  · rcases hside with h | h <;>
      simp only [check_open_position_step, close_trade_closes, hm, h] <;>
      split_ifs <;> simp_all
  · simp only [check_open_position_step, close_trade_closes]
    split_ifs <;> rfl

/-- Witness for C7: the MARGIN/LONG trade `tradeC7` opened at time 0 is
closed at time 2000 (holding time 2000 > 1800) when the fetch succeeds,
even though the spread is positive. -/
theorem C7_close_iff_fetch_and_trigger_witness :
    check_open_position_step 2000 (some (100, 101)) tradeC7 = true :=
  (C7_close_iff_fetch_and_trigger 2000 100 101 tradeC7 rfl (Or.inl rfl)).1.mpr
    (Or.inl (by norm_num [tradeC7, MAX_TRADE_DURATION]))

/-- Claim C8 (confirmed): `update_profit_tracking` floors the new balance at
zero — new_balance = max(0, last + delta), never negative, including a delta
of −10⁹ — the profit percent divides only when the starting balance is
positive, returning 0 otherwise, and every call inserts a snapshot whose
`current_balance` is max(0, last + delta), whose `profit_usdt` is
current_balance − starting_balance, and whose `profit_percent` is
profit_usdt/starting_balance·100 when the starting balance is positive and
0 otherwise. -/
theorem C8_balance_floor_percent_and_profit :
    (∀ b d, new_balance b d = max 0 (b + d) ∧ 0 ≤ new_balance b d) ∧
    (∀ b, b ≤ 10 ^ 9 → new_balance b (-(10 ^ 9)) = 0) ∧
    (∀ p s, 0 < s → profit_percent_of p s = p / s * 100) ∧
    (∀ p, profit_percent_of p 0 = 0) ∧
    (∀ starting_balance now ledger profit_change, ∃ s : ProfitSnapshot,
      s ∈ update_profit_tracking starting_balance now ledger profit_change ∧
      s.current_balance = max 0 (last_balance_of ledger starting_balance + profit_change) ∧
      s.profit_usdt = s.current_balance - starting_balance ∧
      s.profit_percent =
        if starting_balance > 0 then s.profit_usdt / starting_balance * 100 else 0) := by
  refine ⟨fun b d => ⟨rfl, le_max_left 0 _⟩, fun b hb => ?_, fun p s hs => ?_, fun p => ?_,
    fun st now ledger d => ?_⟩
  · rw [new_balance, max_eq_left (by linarith)]
  · rw [profit_percent_of, if_pos hs]
  · rw [profit_percent_of]; norm_num
  · refine ⟨⟨now, new_balance (last_balance_of ledger st) d,
      new_balance (last_balance_of ledger st) d - st,
      profit_percent_of (new_balance (last_balance_of ledger st) d - st) st,
      period_profit ledger now 1 (new_balance (last_balance_of ledger st) d),
      period_profit ledger now 7 (new_balance (last_balance_of ledger st) d),
      period_profit ledger now 30 (new_balance (last_balance_of ledger st) d)⟩,
      ?_, rfl, rfl, rfl⟩
    simp only [update_profit_tracking, upsert_snapshot]
    by_cases hc : ledger.any (fun r => decide (r.current_balance =
        new_balance (last_balance_of ledger st) d)) = true
    · rw [if_pos hc]
      rw [List.any_eq_true] at hc
      obtain ⟨r, hr, hrb⟩ := hc
      rw [decide_eq_true_eq] at hrb
      exact List.mem_map.mpr ⟨r, hr, by rw [if_pos hrb]⟩
    · rw [if_neg hc]
      exact List.mem_append_right _ (List.mem_singleton.mpr rfl)

/-- Witness for C8: a delta of −10⁹ on balance 1000 records balance 0. -/
theorem C8_balance_floor_percent_and_profit_witness :
    new_balance 1000 (-(10 ^ 9)) = 0 :=
  C8_balance_floor_percent_and_profit.2.1 1000 (by norm_num)

/-- Claim C9 (confirmed): `safe_api_call` invokes the wrapped operation at
most `max_retries` = 3 times; when every attempt raises a
classified-transient error it sleeps the doubling delays 1, 2, 4 seconds
and returns the absence value (`None`) instead of letting the exception
escape; a first-attempt success returns immediately after one invocation,
and a non-transient exception is not retried (it escapes at once). -/
theorem C9_retry_bound_and_exhaustion (α : Type) (f : Nat → CallOutcome α) :
    (safe_api_call f).2.1 ≤ max_retries ∧
    ((∀ i, i < max_retries → f i = CallOutcome.transient) →
      safe_api_call f = (CallResult.nothing, 3, [1, 2, 4])) ∧
    (∀ v, f 0 = CallOutcome.ok v → safe_api_call f = (CallResult.value v, 1, [])) ∧
    (f 0 = CallOutcome.fatal → safe_api_call f = (CallResult.escaped, 1, [])) := by
  refine ⟨?_, ?_, ?_, ?_⟩
  · rcases h0 : f 0 with v0 | _ | _ <;> rcases h1 : f 1 with v1 | _ | _ <;>
      rcases h2 : f 2 with v2 | _ | _ <;>
      simp [safe_api_call, max_retries, safe_api_go, h0, h1, h2]
  · intro h
    have h0 := h 0 (by norm_num [max_retries])
    have h1 := h 1 (by norm_num [max_retries])
    have h2 := h 2 (by norm_num [max_retries])
    simp [safe_api_call, max_retries, safe_api_go, h0, h1, h2]
    norm_num
  · intro v hv
    simp [safe_api_call, max_retries, safe_api_go, hv]
  · intro hv
    simp [safe_api_call, max_retries, safe_api_go, hv]

/-- Witness for C9: an always-transient operation yields `None` after 3
invocations with delays 1, 2, 4. -/
theorem C9_retry_bound_and_exhaustion_witness :
    safe_api_call transientOnly = (CallResult.nothing, 3, [1, 2, 4]) :=
  (C9_retry_bound_and_exhaustion Unit transientOnly).2.1 (fun _ _ => rfl)

/-- Claim C10 (confirmed): `simulate_trade` is total in the embedding and
returns 0 whenever either price argument is absent (`None`) and whenever
the trade type is none of the four recognized strings — in particular for
the "MARGIN_LONG" string that `close_trade` passes when closing a margin
long position. -/
theorem C10_simulate_trade_fallthrough_zero (entry_price exit_price : Option ℚ)
    (quantity entry_fee exit_fee : ℚ) (trade_type : String) :
    simulate_trade none exit_price quantity entry_fee exit_fee trade_type = 0 ∧
    simulate_trade entry_price none quantity entry_fee exit_fee trade_type = 0 ∧
    (trade_type ≠ "SPOT_LONG" → trade_type ≠ "SPOT_SHORT" →
      trade_type ≠ "FUTURES_LONG" → trade_type ≠ "FUTURES_SHORT" →
      simulate_trade entry_price exit_price quantity entry_fee exit_fee trade_type = 0) ∧
    simulate_trade entry_price exit_price quantity entry_fee exit_fee "MARGIN_LONG" = 0 := by
  refine ⟨by cases exit_price <;> rfl, by cases entry_price <;> rfl, ?_, ?_⟩
  · intro h1 h2 h3 h4
    cases entry_price with
    | none => rfl
    | some ep =>
      cases exit_price with
      | none => rfl
      | some xp => simp [simulate_trade, h1, h2, h3, h4]
  · cases entry_price <;> cases exit_price <;> simp [simulate_trade]

/-- Witness for C10: the unrecognized string "MARGIN_LONG" at the concrete
close of claim C3 yields 0 through the fall-through branch. -/
theorem C10_simulate_trade_fallthrough_zero_witness :
    simulate_trade (some 100) (some 110) 1 (75 / 100000) (75 / 100000) "MARGIN_LONG" = 0 :=
  (C10_simulate_trade_fallthrough_zero (some 100) (some 110) 1 (75 / 100000) (75 / 100000)
      "MARGIN_LONG").2.2.1
    (by decide) (by decide) (by decide) (by decide)

end SpreadArbitrage
